import Mathlib

/-!
Verification development for the kodepos-worker Python example client
(`examples/python/basic/simple_search.py`).

The client is modelled shallowly:
* Python strings are Lean `String`s; `str.strip()` becomes `pyStrip`.
* The network is an explicit parameter `net : GetRequest → NetBehavior α`
  describing what one HTTP GET returns (a timeout, a connection failure, or
  a response with a status code and an optionally-JSON-parseable body).
* Each client operation returns the Python result (`Except PyError α`,
  where `PyError` mirrors the exceptions the code can raise) together with
  the list of GET requests it issued, so that "performs zero network calls"
  is the statement that this trace is `[]`.
* `format_results` becomes a pure function from records to the list of
  lines it prints; Python truthiness of optional values is modelled by the
  `pyTruthy…` helpers (`None` and `0` and `""` are falsy).
-/

deriving instance DecidableEq for Except

namespace Kodepos

/-- The ASCII whitespace characters removed by Python `str.strip()`. -/
def isPySpace (c : Char) : Bool :=
  c = ' ' || c = '\t' || c = '\n' || c = '\r' || c = Char.ofNat 11 || c = Char.ofNat 12

/-- Remove trailing whitespace from a character list. -/
def rstripL (l : List Char) : List Char :=
  (l.reverse.dropWhile isPySpace).reverse

/-- Remove leading and trailing whitespace, as Python `str.strip()`. -/
def stripL (l : List Char) : List Char :=
  rstripL (l.dropWhile isPySpace)

/-- Python `str.strip()` on strings. -/
def pyStrip (s : String) : String :=
  String.mk (stripL s.toList)

/-- The exceptions the client code can raise: `ValueError` on bad input,
`requests.RequestException` (one single class, carrying only a message) for
every network-level failure, and the JSON decode error that `response.json()`
raises on a non-JSON body. -/
inductive PyError where
  | valueError (msg : String)
  | requestException (msg : String)
  | jsonDecodeError
deriving DecidableEq

/-- Coarse classification of a `PyError` by its Python exception class. -/
inductive ErrKind where
  | valueError
  | requestException
  | jsonDecodeError
deriving DecidableEq

/-- The Python exception class of an error value. -/
def kindOf : PyError → ErrKind
  | .valueError _ => .valueError
  | .requestException _ => .requestException
  | .jsonDecodeError => .jsonDecodeError

/-- The Python exception class of a result, `none` when it succeeded. -/
def errorKindOf {α : Type} : Except PyError α → Option ErrKind
  | .error e => some (kindOf e)
  | .ok _ => none

/-- Whether a result is a raised `ValueError` (the validation failure). -/
def isValErr {α : Type} : Except PyError α → Bool
  | .error (.valueError _) => true
  | _ => false

/-- A value passed in the `params` dict of `requests.Session.get`. -/
inductive ParamValue where
  | str (s : String)
  | num (q : ℚ)
deriving DecidableEq

/-- One outbound HTTP GET request: URL plus query parameters. -/
structure GetRequest where
  url : String
  params : List (String × ParamValue)
deriving DecidableEq

/-- What the network does for one GET: raise `requests.Timeout`, raise
`requests.ConnectionError`, or deliver a response with an HTTP status code
and a body (`some env` when the body is valid JSON parsing to `env`,
`none` when it is not valid JSON). -/
inductive NetBehavior (α : Type) where
  | timeout
  | connectionError
  | response (status : Nat) (body : Option α)

def TIMEOUT_SECONDS : Nat := 10

/-- The shared `try/except` tail of both client operations:
`raise_for_status()` raises `requests.HTTPError` exactly for status codes
in `[400, 600)`; then `response.json()` parses the body.  The `except`
clauses re-raise timeout, connection failure and HTTP error all as
`requests.RequestException` with distinct message texts. -/
def handleResponse {α : Type} (net : NetBehavior α) : Except PyError α :=
  match net with
  | .timeout =>
      .error (.requestException
        ("Request timeout after " ++ toString TIMEOUT_SECONDS ++ " seconds"))
  | .connectionError =>
      .error (.requestException "Failed to connect to API")
  | .response status body =>
      if 400 ≤ status ∧ status < 600 then
        .error (.requestException ("HTTP error: " ++ toString status))
      else
        match body with
        | some env => .ok env
        | none => .error .jsonDecodeError

/-- `SimpleKodeposClient.search_postal_codes`: validates the query (empty
strings are rejected, then the stripped query must have length ≥ 2), then
issues one GET to `base_url ++ "/search"` with the stripped query as the
`q` parameter. -/
def search_postal_codes {α : Type} (base_url : String) (query : String)
    (net : GetRequest → NetBehavior α) : Except PyError α × List GetRequest :=
  if query = "" then
    (.error (.valueError "Query must be a non-empty string"), [])
  else if (pyStrip query).length < 2 then
    (.error (.valueError "Query must be at least 2 characters long"), [])
  else
    let req : GetRequest :=
      ⟨base_url ++ "/search", [("q", ParamValue.str (pyStrip query))]⟩
    (handleResponse (net req), [req])

/-- `SimpleKodeposClient.detect_location`: validates the Indonesian
coordinate bounds, then issues one GET to `base_url ++ "/detect"` with the
coordinates as parameters. -/
def detect_location {α : Type} (base_url : String) (latitude longitude : ℚ)
    (net : GetRequest → NetBehavior α) : Except PyError α × List GetRequest :=
  if ¬ (-11 ≤ latitude ∧ latitude ≤ 6) then
    (.error (.valueError
      "Latitude must be between -11 and 6 degrees (Indonesian bounds)"), [])
  else if ¬ (95 ≤ longitude ∧ longitude ≤ 141) then
    (.error (.valueError
      "Longitude must be between 95 and 141 degrees (Indonesian bounds)"), [])
  else
    let req : GetRequest :=
      ⟨base_url ++ "/detect",
       [("latitude", ParamValue.num latitude), ("longitude", ParamValue.num longitude)]⟩
    (handleResponse (net req), [req])

/-- One postal-code record from the response payload.  A field is `none`
when the key is absent from the JSON object. -/
structure PostalRecord where
  village : Option String
  code : Option String
  district : Option String
  regency : Option String
  province : Option String
  latitude : Option ℚ
  longitude : Option ℚ
  elevation : Option Int
  timezone : Option String
  distance : Option ℚ
deriving DecidableEq

/-- Python truthiness of an optional number: `None` and `0` are falsy. -/
def pyTruthyOQ : Option ℚ → Bool
  | none => false
  | some x => decide (x ≠ 0)

/-- Python truthiness of an optional integer: `None` and `0` are falsy. -/
def pyTruthyOI : Option Int → Bool
  | none => false
  | some x => decide (x ≠ 0)

/-- Python truthiness of an optional string: `None` and `""` are falsy. -/
def pyTruthyOS : Option String → Bool
  | none => false
  | some s => decide (s ≠ "")

/-- A natural number rendered as exactly `prec` digits, zero-padded. -/
def decDigits (prec : Nat) (n : Nat) : String :=
  let s := toString n
  String.mk (List.replicate (prec - s.length) '0') ++ s

/-- Fixed-point rendering of a rational with `prec` decimal places,
modelling Python's `format(x, '.{prec}f')` (rounding modelled half-up). -/
def formatFixed (prec : Nat) (x : ℚ) : String :=
  let d : Nat := 10 ^ prec
  let n : Int := ⌊x * (d : ℚ) + 1 / 2⌋
  let sign := if n < 0 then "-" else ""
  sign ++ toString (n.natAbs / d) ++ "." ++ decDigits prec (n.natAbs % d)

/-- The five unconditional lines of one record block. -/
def baseLines (index : Nat) (item : PostalRecord) : List String :=
  ["\n" ++ toString index ++ ". 🏠 " ++ item.village.getD "N/A",
   "   📍 Postal Code: " ++ item.code.getD "N/A",
   "   🏘️  District: " ++ item.district.getD "N/A",
   "   🌆 Regency: " ++ item.regency.getD "N/A",
   "   🗺️  Province: " ++ item.province.getD "N/A"]

/-- The coordinates line, printed only when `lat and lng` is truthy in
Python, i.e. both fields are present and nonzero. -/
def coordLines (item : PostalRecord) : List String :=
  if pyTruthyOQ item.latitude && pyTruthyOQ item.longitude then
    ["   🧭 Coordinates: " ++ formatFixed 6 (item.latitude.getD 0) ++ ", "
       ++ formatFixed 6 (item.longitude.getD 0)]
  else []

/-- The elevation line, printed only when `item.get('elevation')` is truthy. -/
def elevLines (item : PostalRecord) : List String :=
  if pyTruthyOI item.elevation then
    ["   ⛰️  Elevation: " ++ toString (item.elevation.getD 0) ++ "m"]
  else []

/-- The timezone line, printed only when `item.get('timezone')` is truthy. -/
def tzLines (item : PostalRecord) : List String :=
  if pyTruthyOS item.timezone then
    ["   🕐 Timezone: " ++ item.timezone.getD ""]
  else []

/-- The distance line, printed only when `item.get('distance')` is truthy. -/
def distLines (item : PostalRecord) : List String :=
  if pyTruthyOQ item.distance then
    ["   📏 Distance: " ++ formatFixed 3 (item.distance.getD 0) ++ " km"]
  else []

/-- The full block printed for record number `index`. -/
def formatRecord (index : Nat) (item : PostalRecord) : List String :=
  baseLines index item ++ coordLines item ++ elevLines item
    ++ tzLines item ++ distLines item

/-- The loop `for index, item in enumerate(results, 1)`. -/
def formatBlocks : Nat → List PostalRecord → List String
  | _, [] => []
  | i, r :: rs => formatRecord i r ++ formatBlocks (i + 1) rs

/-- `format_results`: the lines printed for a result list. -/
def format_results (results : List PostalRecord) : List String :=
  if results = [] then
    ["No results found."]
  else
    ("\n📋 Found " ++ toString results.length ++ " results:")
      :: String.mk (List.replicate 60 '=')
      :: formatBlocks 1 results

/-- A record with every optional field absent. -/
def emptyRecord : PostalRecord :=
  ⟨none, none, none, none, none, none, none, none, none, none⟩

/-- A record whose latitude is present but `0.0` (Python-falsy) and whose
longitude is present and truthy. -/
def zeroLatRecord : PostalRecord :=
  ⟨some "Menteng", some "10110", some "Menteng", some "Jakarta Pusat",
   some "DKI Jakarta", some 0, some 100, none, none, none⟩

/-- A record with both coordinates present and nonzero. -/
def coordRecord : PostalRecord :=
  ⟨none, none, none, none, none, some 1, some 100, none, none, none⟩

/-- A record whose elevation is present and equal to 50. -/
def elevRecord : PostalRecord :=
  ⟨none, none, none, none, none, none, none, some 50, none, none⟩

end Kodepos

namespace Kodepos

/-- `rstripL` is Mathlib's `List.rdropWhile`. -/
lemma rstripL_eq_rdropWhile (l : List Char) :
    rstripL l = List.rdropWhile isPySpace l := rfl

/-- Dropping leading whitespace is vacuous after right-then-left stripping:
the head of `(l.dropWhile p).rdropWhile p` already fails `p`. -/
lemma dropWhile_rdropWhile_dropWhile {α : Type} (p : α → Bool) (l : List α) :
    ((l.dropWhile p).rdropWhile p).dropWhile p = (l.dropWhile p).rdropWhile p := by
  rw [List.dropWhile_eq_self_iff]
  intro hl
  have hpre : (l.dropWhile p).rdropWhile p <+: l.dropWhile p :=
    List.rdropWhile_prefix p _
  have hlen : 0 < (l.dropWhile p).length := lt_of_lt_of_le hl hpre.length_le
  simp only [List.get_eq_getElem]
  rw [hpre.getElem hl]
  have h2 := List.dropWhile_get_zero_not p l hlen
  simpa [List.get_eq_getElem] using h2

/-- Python `str.strip()` on character lists is idempotent. -/
lemma stripL_idem (l : List Char) : stripL (stripL l) = stripL l := by
  unfold stripL
  simp only [rstripL_eq_rdropWhile]
  rw [dropWhile_rdropWhile_dropWhile, List.rdropWhile_idempotent]

/-- Python `str.strip()` is idempotent. -/
lemma pyStrip_idem (s : String) : pyStrip (pyStrip s) = pyStrip s := by
  unfold pyStrip
  rw [show (String.mk (stripL s.toList)).toList = stripL s.toList from rfl, stripL_idem]

lemma pyStrip_empty : pyStrip "" = "" := rfl

/-- `handleResponse` never produces a `ValueError`: validation errors arise
only before the network phase. -/
lemma isValErr_handleResponse {α : Type} (b : NetBehavior α) :
    isValErr (handleResponse b) = false := by
  cases b with
  | timeout => rfl
  | connectionError => rfl
  | response status body =>
      by_cases h : 400 ≤ status ∧ status < 600
      · simp [handleResponse, h, isValErr]
      · cases body <;> simp [handleResponse, h, isValErr]

lemma handleResponse_not_valueError {α : Type} (b : NetBehavior α) (msg : String) :
    handleResponse b ≠ Except.error (PyError.valueError msg) := by
  intro h
  have hv := isValErr_handleResponse b
  rw [h] at hv
  simp [isValErr] at hv

/-- Claim C1: every query that is empty, or whose trimmed form has length
less than 2, makes `search_postal_codes` raise a `ValueError` and issue no
HTTP GET at all (the request trace is empty). -/
theorem search_rejects_short {α : Type} (base q : String)
    (net : GetRequest → NetBehavior α)
    (h : q = "" ∨ (pyStrip q).length < 2) :
    (∃ msg, (search_postal_codes base q net).1
        = Except.error (PyError.valueError msg))
    ∧ (search_postal_codes base q net).2 = [] := by
  by_cases hq : q = ""
  · exact ⟨⟨"Query must be a non-empty string", by simp [search_postal_codes, hq]⟩,
      by simp [search_postal_codes, hq]⟩
  · have hlen : (pyStrip q).length < 2 := h.resolve_left hq
    exact ⟨⟨"Query must be at least 2 characters long",
        by simp [search_postal_codes, hq, hlen]⟩,
      by simp [search_postal_codes, hq, hlen]⟩

theorem search_rejects_short_witness :
    (∃ msg, (search_postal_codes "https://api" "a"
        (fun _ => (NetBehavior.timeout : NetBehavior Nat))).1
        = Except.error (PyError.valueError msg))
    ∧ (search_postal_codes "https://api" "a"
        (fun _ => (NetBehavior.timeout : NetBehavior Nat))).2 = [] :=
  search_rejects_short "https://api" "a" _ (Or.inr (by decide))

/-- Claim C2: `detect_location` raises a `ValueError` and issues no HTTP
GET whenever the coordinates fall outside latitude `[-11, 6]` or longitude
`[95, 141]`; inside the box (boundaries included) it never raises a
`ValueError`. -/
theorem detect_bounds {α : Type} (base : String) (lat lng : ℚ)
    (net : GetRequest → NetBehavior α) :
    ((¬ (-11 ≤ lat ∧ lat ≤ 6) ∨ ¬ (95 ≤ lng ∧ lng ≤ 141)) →
      (∃ msg, (detect_location base lat lng net).1
          = Except.error (PyError.valueError msg))
      ∧ (detect_location base lat lng net).2 = [])
    ∧ (-11 ≤ lat ∧ lat ≤ 6 → 95 ≤ lng ∧ lng ≤ 141 →
      ∀ msg, (detect_location base lat lng net).1
          ≠ Except.error (PyError.valueError msg)) := by
  constructor
  · intro h
    by_cases hlat : -11 ≤ lat ∧ lat ≤ 6
    · have hlng : ¬ (95 ≤ lng ∧ lng ≤ 141) := h.resolve_left (not_not_intro hlat)
      exact ⟨⟨"Longitude must be between 95 and 141 degrees (Indonesian bounds)",
          by simp [detect_location, hlat, hlng]⟩,
        by simp [detect_location, hlat, hlng]⟩
    · exact ⟨⟨"Latitude must be between -11 and 6 degrees (Indonesian bounds)",
          by simp [detect_location, hlat]⟩,
        by simp [detect_location, hlat]⟩
  · intro hlat hlng msg
    have h1 : (detect_location base lat lng net).1
        = handleResponse (net ⟨base ++ "/detect",
            [("latitude", ParamValue.num lat), ("longitude", ParamValue.num lng)]⟩) := by
      simp [detect_location, hlat, hlng]
    rw [h1]
    exact handleResponse_not_valueError _ msg

theorem detect_bounds_witness :
    ((∃ msg, (detect_location "https://api" 20 100
        (fun _ => (NetBehavior.timeout : NetBehavior Nat))).1
        = Except.error (PyError.valueError msg))
      ∧ (detect_location "https://api" 20 100
          (fun _ => (NetBehavior.timeout : NetBehavior Nat))).2 = [])
    ∧ (∀ msg, (detect_location "https://api" 0 100
        (fun _ => (NetBehavior.timeout : NetBehavior Nat))).1
        ≠ Except.error (PyError.valueError msg)) :=
  ⟨(detect_bounds "https://api" 20 100 _).1 (Or.inl (by norm_num)),
   (detect_bounds "https://api" 0 100 _).2 (by norm_num) (by norm_num)⟩


/-- In the valid-query case, `search_postal_codes` is exactly one GET to
`base ++ "/search"` with the stripped query, fed to the response handler. -/
lemma search_valid_eq {α : Type} (base q : String)
    (net : GetRequest → NetBehavior α)
    (hq : q ≠ "") (hlen : ¬ (pyStrip q).length < 2) :
    search_postal_codes base q net
      = (handleResponse (net ⟨base ++ "/search", [("q", ParamValue.str (pyStrip q))]⟩),
         [⟨base ++ "/search", [("q", ParamValue.str (pyStrip q))]⟩]) := by
  simp [search_postal_codes, hq, hlen]

/-- In the in-bounds case, `detect_location` is exactly one GET to
`base ++ "/detect"` with the coordinates, fed to the response handler. -/
lemma detect_valid_eq {α : Type} (base : String) (lat lng : ℚ)
    (net : GetRequest → NetBehavior α)
    (hlat : -11 ≤ lat ∧ lat ≤ 6) (hlng : 95 ≤ lng ∧ lng ≤ 141) :
    detect_location base lat lng net
      = (handleResponse (net ⟨base ++ "/detect",
           [("latitude", ParamValue.num lat), ("longitude", ParamValue.num lng)]⟩),
         [⟨base ++ "/detect",
           [("latitude", ParamValue.num lat), ("longitude", ParamValue.num lng)]⟩]) := by
  simp [detect_location, hlat, hlng]

lemma handleResponse_timeout_eq {α : Type} :
    handleResponse (NetBehavior.timeout : NetBehavior α)
      = Except.error (PyError.requestException "Request timeout after 10 seconds") := by
  have h : ("Request timeout after " ++ toString TIMEOUT_SECONDS ++ " seconds")
      = "Request timeout after 10 seconds" := by decide
  calc handleResponse (NetBehavior.timeout : NetBehavior α)
      = Except.error (PyError.requestException
          ("Request timeout after " ++ toString TIMEOUT_SECONDS ++ " seconds")) := rfl
    _ = Except.error (PyError.requestException "Request timeout after 10 seconds") := by
          rw [h]

lemma handleResponse_conn_eq {α : Type} :
    handleResponse (NetBehavior.connectionError : NetBehavior α)
      = Except.error (PyError.requestException "Failed to connect to API") := rfl

lemma handleResponse_http_eq {α : Type} (status : Nat) (body : Option α)
    (h : 400 ≤ status ∧ status < 600) :
    handleResponse (NetBehavior.response status body)
      = Except.error (PyError.requestException ("HTTP error: " ++ toString status)) := by
  simp [handleResponse, h]

/-- Claim C3 (counterexample): on an HTTP 404 response whose body is valid
JSON, `search_postal_codes` does not return the parsed envelope; it raises
`requests.RequestException` instead, because `raise_for_status()` runs
before `response.json()`. -/
theorem envelope_any_status_counterexample :
    (search_postal_codes "https://api" "ab"
        (fun _ => NetBehavior.response 404 (some (42 : Nat)))).1
      = Except.error (PyError.requestException "HTTP error: 404")
    ∧ (search_postal_codes "https://api" "ab"
        (fun _ => NetBehavior.response 404 (some (42 : Nat)))).1
      ≠ Except.ok 42 := by decide

/-- Claim C3 (amended): for every HTTP response with valid JSON body, both
operations return the parsed envelope exactly when the status code is
outside `[400, 600)`; for statuses inside that range they raise instead of
returning the envelope.  The caller still inspects the JSON-level
`statusCode`/`error` fields of envelopes it does receive. -/
theorem envelope_return_amended {α : Type} (base q : String) (lat lng : ℚ)
    (net netD : GetRequest → NetBehavior α) (status : Nat) (env : α)
    (hq : q ≠ "") (hlen : ¬ (pyStrip q).length < 2)
    (hlat : -11 ≤ lat ∧ lat ≤ 6) (hlng : 95 ≤ lng ∧ lng ≤ 141)
    (hnet : ∀ r, net r = NetBehavior.response status (some env))
    (hnetD : ∀ r, netD r = NetBehavior.response status (some env)) :
    (search_postal_codes base q net).1
      = (if 400 ≤ status ∧ status < 600 then
          Except.error (PyError.requestException ("HTTP error: " ++ toString status))
        else Except.ok env)
    ∧ (detect_location base lat lng netD).1
      = (if 400 ≤ status ∧ status < 600 then
          Except.error (PyError.requestException ("HTTP error: " ++ toString status))
        else Except.ok env) := by
  constructor
  · rw [search_valid_eq base q net hq hlen]
    rw [show (handleResponse (net ⟨base ++ "/search",
          [("q", ParamValue.str (pyStrip q))]⟩),
        [(⟨base ++ "/search", [("q", ParamValue.str (pyStrip q))]⟩ : GetRequest)]).1
      = handleResponse (net ⟨base ++ "/search",
          [("q", ParamValue.str (pyStrip q))]⟩) from rfl]
    rw [hnet]
    by_cases h : 400 ≤ status ∧ status < 600 <;> simp [handleResponse, h]
  · rw [detect_valid_eq base lat lng netD hlat hlng]
    rw [show (handleResponse (netD ⟨base ++ "/detect",
          [("latitude", ParamValue.num lat), ("longitude", ParamValue.num lng)]⟩),
        [(⟨base ++ "/detect",
          [("latitude", ParamValue.num lat), ("longitude", ParamValue.num lng)]⟩ : GetRequest)]).1
      = handleResponse (netD ⟨base ++ "/detect",
          [("latitude", ParamValue.num lat), ("longitude", ParamValue.num lng)]⟩) from rfl]
    rw [hnetD]
    by_cases h : 400 ≤ status ∧ status < 600 <;> simp [handleResponse, h]

theorem envelope_return_amended_witness :
    (search_postal_codes "https://api" "ab"
        (fun _ => NetBehavior.response 200 (some (7 : Nat)))).1
      = (if 400 ≤ 200 ∧ 200 < 600 then
          Except.error (PyError.requestException ("HTTP error: " ++ toString 200))
        else Except.ok 7)
    ∧ (detect_location "https://api" 0 100
        (fun _ => NetBehavior.response 200 (some (7 : Nat)))).1
      = (if 400 ≤ 200 ∧ 200 < 600 then
          Except.error (PyError.requestException ("HTTP error: " ++ toString 200))
        else Except.ok 7) :=
  envelope_return_amended "https://api" "ab" 0 100 _ _ 200 7
    (by decide) (by decide) (by norm_num) (by norm_num)
    (fun _ => rfl) (fun _ => rfl)

/-- Claim C4 (counterexample): a timeout and a connection failure surface
as error values of the same Python exception class
(`requests.RequestException`), so they are not distinguishable by error
kind, only by message text. -/
theorem same_error_kind_counterexample :
    errorKindOf (search_postal_codes "https://api" "ab"
        (fun _ => (NetBehavior.timeout : NetBehavior Nat))).1
      = errorKindOf (search_postal_codes "https://api" "ab"
        (fun _ => (NetBehavior.connectionError : NetBehavior Nat))).1
    ∧ errorKindOf (search_postal_codes "https://api" "ab"
        (fun _ => (NetBehavior.timeout : NetBehavior Nat))).1
      = some ErrKind.requestException := by decide

/-- Claim C4 (amended): for both operations, a timeout, a connection
failure, and an HTTP status in `[400, 600)` each surface as a
`requests.RequestException`; they are distinguishable only by their message
texts, and the non-2xx status code is carried only inside the message
`"HTTP error: <status>"`. -/
theorem failure_classification_amended {α : Type} (base q : String) (lat lng : ℚ)
    (status : Nat) (body : Option α)
    (hq : q ≠ "") (hlen : ¬ (pyStrip q).length < 2)
    (hlat : -11 ≤ lat ∧ lat ≤ 6) (hlng : 95 ≤ lng ∧ lng ≤ 141)
    (hstat : 400 ≤ status ∧ status < 600) :
    ((search_postal_codes base q (fun _ => (NetBehavior.timeout : NetBehavior α))).1
        = Except.error (PyError.requestException "Request timeout after 10 seconds")
      ∧ (detect_location base lat lng (fun _ => (NetBehavior.timeout : NetBehavior α))).1
        = Except.error (PyError.requestException "Request timeout after 10 seconds"))
    ∧ ((search_postal_codes base q (fun _ => (NetBehavior.connectionError : NetBehavior α))).1
        = Except.error (PyError.requestException "Failed to connect to API")
      ∧ (detect_location base lat lng (fun _ => (NetBehavior.connectionError : NetBehavior α))).1
        = Except.error (PyError.requestException "Failed to connect to API"))
    ∧ ((search_postal_codes base q (fun _ => NetBehavior.response status body)).1
        = Except.error (PyError.requestException ("HTTP error: " ++ toString status))
      ∧ (detect_location base lat lng (fun _ => NetBehavior.response status body)).1
        = Except.error (PyError.requestException ("HTTP error: " ++ toString status))) := by
  refine ⟨⟨?_, ?_⟩, ⟨?_, ?_⟩, ⟨?_, ?_⟩⟩
  · rw [search_valid_eq base q _ hq hlen]
    exact handleResponse_timeout_eq
  · rw [detect_valid_eq base lat lng _ hlat hlng]
    exact handleResponse_timeout_eq
  · rw [search_valid_eq base q _ hq hlen]
    exact handleResponse_conn_eq
  · rw [detect_valid_eq base lat lng _ hlat hlng]
    exact handleResponse_conn_eq
  · rw [search_valid_eq base q _ hq hlen]
    exact handleResponse_http_eq status body hstat
  · rw [detect_valid_eq base lat lng _ hlat hlng]
    exact handleResponse_http_eq status body hstat

theorem failure_classification_amended_witness :
    ((search_postal_codes "https://api" "ab"
        (fun _ => (NetBehavior.timeout : NetBehavior Nat))).1
        = Except.error (PyError.requestException "Request timeout after 10 seconds")
      ∧ (detect_location "https://api" 0 100
          (fun _ => (NetBehavior.timeout : NetBehavior Nat))).1
        = Except.error (PyError.requestException "Request timeout after 10 seconds"))
    ∧ ((search_postal_codes "https://api" "ab"
          (fun _ => (NetBehavior.connectionError : NetBehavior Nat))).1
        = Except.error (PyError.requestException "Failed to connect to API")
      ∧ (detect_location "https://api" 0 100
          (fun _ => (NetBehavior.connectionError : NetBehavior Nat))).1
        = Except.error (PyError.requestException "Failed to connect to API"))
    ∧ ((search_postal_codes "https://api" "ab"
          (fun _ => NetBehavior.response 503 (none : Option Nat))).1
        = Except.error (PyError.requestException ("HTTP error: " ++ toString 503))
      ∧ (detect_location "https://api" 0 100
          (fun _ => NetBehavior.response 503 (none : Option Nat))).1
        = Except.error (PyError.requestException ("HTTP error: " ++ toString 503))) :=
  failure_classification_amended "https://api" "ab" 0 100 503 none
    (by decide) (by decide) (by norm_num) (by norm_num) (by norm_num)

/-- Claim C7: `format_results` on the empty record list prints exactly the
single-line "no results" message: no header, no separator, no blocks. -/
theorem format_results_empty : format_results [] = ["No results found."] := rfl

/-- Claim C10: `search_postal_codes` is invariant under leading/trailing
whitespace in its argument: the query and its trimmed form take the same
validation decision, and when valid they behave identically and issue the
identical single request whose `q` parameter is the trimmed query. -/
theorem search_strip_invariant {α : Type} (base q : String)
    (net : GetRequest → NetBehavior α) :
    isValErr (search_postal_codes base q net).1
      = isValErr (search_postal_codes base (pyStrip q) net).1
    ∧ (isValErr (search_postal_codes base q net).1 = false →
      search_postal_codes base q net = search_postal_codes base (pyStrip q) net
      ∧ (search_postal_codes base q net).2
          = [⟨base ++ "/search", [("q", ParamValue.str (pyStrip q))]⟩]) := by
  by_cases hq : q = ""
  · subst hq
    rw [pyStrip_empty]
    exact ⟨rfl, fun h => by simp [search_postal_codes, isValErr] at h⟩
  · by_cases hsq : pyStrip q = ""
    · have hlen : (pyStrip q).length < 2 := by rw [hsq]; decide
      constructor
      · simp [search_postal_codes, hq, hsq, hlen, isValErr]
      · intro h
        exfalso
        simp [search_postal_codes, hq, hlen, isValErr] at h
    · have hidem := pyStrip_idem q
      by_cases hlen : (pyStrip q).length < 2
      · constructor
        · simp [search_postal_codes, hq, hsq, hlen, hidem, isValErr]
        · intro h
          exfalso
          simp [search_postal_codes, hq, hlen, isValErr] at h
      · constructor
        · simp [search_postal_codes, hq, hsq, hlen, hidem, isValErr]
        · intro _
          constructor
          · simp [search_postal_codes, hq, hsq, hlen, hidem]
          · simp [search_postal_codes, hq, hlen]

theorem search_strip_invariant_witness :
    isValErr (search_postal_codes "https://api" " ab "
        (fun _ => (NetBehavior.timeout : NetBehavior Nat))).1
      = isValErr (search_postal_codes "https://api" (pyStrip " ab ")
        (fun _ => (NetBehavior.timeout : NetBehavior Nat))).1
    ∧ (search_postal_codes "https://api" " ab "
        (fun _ => (NetBehavior.timeout : NetBehavior Nat))
      = search_postal_codes "https://api" (pyStrip " ab ")
        (fun _ => (NetBehavior.timeout : NetBehavior Nat))
      ∧ (search_postal_codes "https://api" " ab "
          (fun _ => (NetBehavior.timeout : NetBehavior Nat))).2
          = [⟨"https://api" ++ "/search", [("q", ParamValue.str (pyStrip " ab "))]⟩]) :=
  ⟨(search_strip_invariant "https://api" " ab " _).1,
   (search_strip_invariant "https://api" " ab " _).2 (by decide)⟩


/-- The enumeration loop of `format_results` expands to one block per
record, numbered consecutively from the start index, in input order. -/
lemma formatBlocks_eq (rs : List PostalRecord) :
    ∀ i, formatBlocks i rs
      = (((List.range' i rs.length).zip rs).map fun p => formatRecord p.1 p.2).flatten := by
  induction rs with
  | nil => intro i; rfl
  | cons r rest ih =>
      intro i
      rw [show (r :: rest).length = rest.length + 1 from rfl]
      rw [show List.range' i (rest.length + 1)
            = i :: List.range' (i + 1) rest.length from rfl]
      simp only [List.zip_cons_cons, List.map_cons, List.flatten_cons]
      rw [show formatBlocks i (r :: rest)
            = formatRecord i r ++ formatBlocks (i + 1) rest from rfl, ih (i + 1)]

/-- Claim C5: on a non-empty record list, `format_results` prints a header
stating the count, the separator, and then exactly one numbered block per
record, numbered from 1, in the input order of the list (no re-sorting). -/
theorem format_results_nonempty (rs : List PostalRecord) (h : rs ≠ []) :
    format_results rs
      = ("\n📋 Found " ++ toString rs.length ++ " results:")
        :: String.mk (List.replicate 60 '=')
        :: (((List.range' 1 rs.length).zip rs).map fun p => formatRecord p.1 p.2).flatten := by
  unfold format_results
  rw [if_neg h, formatBlocks_eq rs 1]

theorem format_results_nonempty_witness :
    format_results [emptyRecord]
      = ("\n📋 Found " ++ toString ([emptyRecord] : List PostalRecord).length ++ " results:")
        :: String.mk (List.replicate 60 '=')
        :: (((List.range' 1 ([emptyRecord] : List PostalRecord).length).zip [emptyRecord]).map
              fun p => formatRecord p.1 p.2).flatten :=
  format_results_nonempty [emptyRecord] (by simp)

/-- Claim C6 (counterexample): a record with latitude present but equal to
0.0 and longitude present and truthy gets no coordinates line: its block
is exactly the five base lines.  The line's presence depends on the
values, not only on the presence of the two fields, because the code
guards with Python truthiness (`if lat and lng`). -/
theorem coordinates_zero_counterexample :
    zeroLatRecord.latitude = some 0
    ∧ zeroLatRecord.longitude = some 100
    ∧ coordLines zeroLatRecord = []
    ∧ formatRecord 1 zeroLatRecord = baseLines 1 zeroLatRecord := by
  refine ⟨rfl, rfl, by decide, ?_⟩
  have hc : coordLines zeroLatRecord = [] := by decide
  have he : elevLines zeroLatRecord = [] := rfl
  have ht : tzLines zeroLatRecord = [] := rfl
  have hd : distLines zeroLatRecord = [] := rfl
  rw [formatRecord, hc, he, ht, hd]
  simp

/-- Claim C6 (amended): the coordinates line, formatted to 6 decimal
places, is printed exactly when both latitude and longitude are present
AND nonzero (Python truthiness); a missing latitude or longitude yields no
line, and so does a present-but-zero value. -/
theorem coordinates_line_amended (i : Nat) (r : PostalRecord) :
    ((∃ lat, r.latitude = some lat ∧ lat ≠ 0) →
      (∃ lng, r.longitude = some lng ∧ lng ≠ 0) →
      ∃ lat lng, r.latitude = some lat ∧ r.longitude = some lng ∧
        ("   🧭 Coordinates: " ++ formatFixed 6 lat ++ ", " ++ formatFixed 6 lng)
          ∈ formatRecord i r)
    ∧ ((r.latitude = none ∨ r.longitude = none) → coordLines r = [])
    ∧ (∀ lat, r.latitude = some lat → lat = 0 → coordLines r = [])
    ∧ (∀ lng, r.longitude = some lng → lng = 0 → coordLines r = []) := by
  refine ⟨?_, ?_, ?_, ?_⟩
  · rintro ⟨lat, hlat, hlat0⟩ ⟨lng, hlng, hlng0⟩
    refine ⟨lat, lng, hlat, hlng, ?_⟩
    have hcl : coordLines r
        = ["   🧭 Coordinates: " ++ formatFixed 6 lat ++ ", " ++ formatFixed 6 lng] := by
      simp [coordLines, hlat, hlng, pyTruthyOQ, hlat0, hlng0]
    simp [formatRecord, hcl]
  · rintro (h | h) <;> simp [coordLines, h, pyTruthyOQ]
  · intro lat hlat h0
    subst h0
    simp [coordLines, hlat, pyTruthyOQ]
  · intro lng hlng h0
    subst h0
    simp [coordLines, hlng, pyTruthyOQ]

theorem coordinates_line_amended_witness :
    ∃ lat lng, coordRecord.latitude = some lat ∧ coordRecord.longitude = some lng ∧
      ("   🧭 Coordinates: " ++ formatFixed 6 lat ++ ", " ++ formatFixed 6 lng)
        ∈ formatRecord 1 coordRecord :=
  (coordinates_line_amended 1 coordRecord).1 ⟨1, rfl, by norm_num⟩ ⟨100, rfl, by norm_num⟩

/-- Claim C8: a record without an elevation field renders with no
elevation line (the block is just the other line groups); a record with
elevation 50 renders a line containing "50". -/
theorem elevation_rendering (i : Nat) (r : PostalRecord) :
    (r.elevation = none →
      elevLines r = []
      ∧ formatRecord i r
          = baseLines i r ++ coordLines r ++ tzLines r ++ distLines r)
    ∧ (r.elevation = some 50 →
      ∃ ln ∈ formatRecord i r, ∃ a b : String, ln = a ++ "50" ++ b) := by
  constructor
  · intro h
    have he : elevLines r = [] := by simp [elevLines, h, pyTruthyOI]
    refine ⟨he, ?_⟩
    simp [formatRecord, he]
  · intro h
    have he : elevLines r = ["   ⛰️  Elevation: " ++ toString (50 : Int) ++ "m"] := by
      simp only [elevLines, h]
      decide
    refine ⟨"   ⛰️  Elevation: " ++ toString (50 : Int) ++ "m", ?_,
      "   ⛰️  Elevation: ", "m", ?_⟩
    · simp [formatRecord, he]
    · decide

theorem elevation_rendering_witness :
    (elevLines emptyRecord = []
      ∧ formatRecord 1 emptyRecord
          = baseLines 1 emptyRecord ++ coordLines emptyRecord
            ++ tzLines emptyRecord ++ distLines emptyRecord)
    ∧ (∃ ln ∈ formatRecord 2 elevRecord, ∃ a b : String, ln = a ++ "50" ++ b) :=
  ⟨(elevation_rendering 1 emptyRecord).1 rfl,
   (elevation_rendering 2 elevRecord).2 rfl⟩

/-- Claim C9: rendering is total over arbitrary absent optional fields
(`formatRecord` is a function into `List String`, with no error case):
each absent field among village, code, district, regency, province renders
as an explicit "N/A" marker in its line, and absence of the remaining
optional fields merely omits the corresponding line. -/
theorem missing_fields_render (i : Nat) (r : PostalRecord) :
    (r.village = none → ("\n" ++ toString i ++ ". 🏠 " ++ "N/A") ∈ formatRecord i r)
    ∧ (r.code = none → ("   📍 Postal Code: " ++ "N/A") ∈ formatRecord i r)
    ∧ (r.district = none → ("   🏘️  District: " ++ "N/A") ∈ formatRecord i r)
    ∧ (r.regency = none → ("   🌆 Regency: " ++ "N/A") ∈ formatRecord i r)
    ∧ (r.province = none → ("   🗺️  Province: " ++ "N/A") ∈ formatRecord i r)
    ∧ ((r.latitude = none ∨ r.longitude = none) → coordLines r = [])
    ∧ (r.elevation = none → elevLines r = [])
    ∧ (r.timezone = none → tzLines r = [])
    ∧ (r.distance = none → distLines r = []) := by
  refine ⟨?_, ?_, ?_, ?_, ?_, ?_, ?_, ?_, ?_⟩
  · intro h; simp [formatRecord, baseLines, h]
  · intro h; simp [formatRecord, baseLines, h]
  · intro h; simp [formatRecord, baseLines, h]
  · intro h; simp [formatRecord, baseLines, h]
  · intro h; simp [formatRecord, baseLines, h]
  · rintro (h | h) <;> simp [coordLines, h, pyTruthyOQ]
  · intro h; simp [elevLines, h, pyTruthyOI]
  · intro h; simp [tzLines, h, pyTruthyOS]
  · intro h; simp [distLines, h, pyTruthyOQ]

theorem missing_fields_render_witness :
    ("\n" ++ toString 1 ++ ". 🏠 " ++ "N/A") ∈ formatRecord 1 emptyRecord
    ∧ ("   📍 Postal Code: " ++ "N/A") ∈ formatRecord 1 emptyRecord
    ∧ ("   🗺️  Province: " ++ "N/A") ∈ formatRecord 1 emptyRecord
    ∧ coordLines emptyRecord = []
    ∧ tzLines emptyRecord = [] :=
  ⟨(missing_fields_render 1 emptyRecord).1 rfl,
   (missing_fields_render 1 emptyRecord).2.1 rfl,
   (missing_fields_render 1 emptyRecord).2.2.2.2.1 rfl,
   (missing_fields_render 1 emptyRecord).2.2.2.2.2.1 (Or.inl rfl),
   (missing_fields_render 1 emptyRecord).2.2.2.2.2.2.2.1 rfl⟩

end Kodepos
